import Mathlib

/-!
Verification of `ScenarioSelectorControl.tsx` from the WebGL-Orbiter
repository: a shallow embedding of the scenario-selector click handler
and the facts the specification states about it.

The component's own code (the preset list, the `onSelectScenario`
callback, `setVisible`) is embedded from the source.  The three.js
vector/quaternion operations it calls are embedded from the three.js
library sources (`Vector3.multiplyScalar`, `Vector3.applyQuaternion`,
`Quaternion.multiply`).  `AxisAngleQuaternion` and `AU` come from the
repository's `CelestialBody` module, which is not part of the sources
here; they are modelled from the spec.  `CelestialBody.findBody` and
`setOrbitingVelocity` are external collaborators and are passed in as
parameters of the embedded callback.
-/

namespace Orbiter

noncomputable section

/-- three.js `Vector3` (the fields the source uses). -/
structure Vector3 where
  x : ℝ
  y : ℝ
  z : ℝ

/-- three.js `Quaternion`: imaginary parts `x y z`, real part `w`. -/
structure Quaternion where
  x : ℝ
  y : ℝ
  z : ℝ
  w : ℝ

/-- three.js `Quaternion.multiply` (Hamilton product `a * b`), from
`multiplyQuaternions` in the three.js sources. -/
def Quaternion.multiply (a b : Quaternion) : Quaternion :=
  ⟨ a.x * b.w + a.w * b.x + a.y * b.z - a.z * b.y,
    a.y * b.w + a.w * b.y + a.z * b.x - a.x * b.z,
    a.z * b.w + a.w * b.z + a.x * b.y - a.y * b.x,
    a.w * b.w - a.x * b.x - a.y * b.y - a.z * b.z ⟩

/-- three.js `Quaternion.clone`: a fresh copy with the same components
(in a pure embedding, the identity). -/
def Quaternion.clone (q : Quaternion) : Quaternion := q

/-- Squared length of a quaternion (three.js `lengthSq`). -/
def Quaternion.lengthSq (q : Quaternion) : ℝ :=
  q.x ^ 2 + q.y ^ 2 + q.z ^ 2 + q.w ^ 2

/-- three.js `Vector3.multiplyScalar`. -/
def Vector3.multiplyScalar (v : Vector3) (s : ℝ) : Vector3 :=
  ⟨v.x * s, v.y * s, v.z * s⟩

/-- three.js `Vector3.applyQuaternion`, following the library source:
`t = 2 * cross(q.im, v)`, result `v + q.w * t + cross(q.im, t)`. -/
def Vector3.applyQuaternion (v : Vector3) (q : Quaternion) : Vector3 :=
  let tx := 2 * (q.y * v.z - q.z * v.y)
  let ty := 2 * (q.z * v.x - q.x * v.z)
  let tz := 2 * (q.x * v.y - q.y * v.x)
  ⟨ v.x + q.w * tx + (q.y * tz - q.z * ty),
    v.y + q.w * ty + (q.z * tx - q.x * tz),
    v.z + q.w * tz + (q.x * ty - q.y * tx) ⟩

/-- Squared Euclidean length of a vector (three.js `lengthSq`). -/
def Vector3.lengthSq (v : Vector3) : ℝ :=
  v.x ^ 2 + v.y ^ 2 + v.z ^ 2

/-- Euclidean length of a vector (three.js `length`). -/
def Vector3.length (v : Vector3) : ℝ :=
  Real.sqrt v.lengthSq

/-- Modelled from the spec: `AU`, the astronomical-unit distance
normalization constant exported by the repository's `CelestialBody`
module (absent from the sources here); the astronomical unit in
kilometers. -/
def AU : ℝ := 149597871

/-- Modelled from the spec: `AxisAngleQuaternion(x, y, z, angle)` from
the repository's `CelestialBody` module (absent from the sources here):
the unit quaternion of the rotation about axis `(x, y, z)` by `angle`,
i.e. three.js `setFromAxisAngle`. -/
def AxisAngleQuaternion (x y z angle : ℝ) : Quaternion :=
  ⟨ x * Real.sin (angle / 2),
    y * Real.sin (angle / 2),
    z * Real.sin (angle / 2),
    Real.cos (angle / 2) ⟩

/-- The mutable `CelestialBody` fields the selector callback touches.
The parent reference and the `setOrbitingVelocity` result are abstract
handles/values supplied from outside the component. -/
structure CelestialBody where
  parent : Option String
  position : Vector3
  quaternion : Quaternion
  velocity : Vector3
  angularVelocity : Vector3
  totalDeltaV : ℝ
  ignitionCount : ℕ

/-- One scenario preset, per the inline type annotation in the source:
`{title, parent, semimajor_axis, eccentricity?, rotation?, ascending_node?}`. -/
structure Scenario where
  title : String
  parent : String
  semimajor_axis : ℝ
  eccentricity : Option ℝ
  rotation : Option Quaternion
  ascending_node : Option ℝ

/-- The static preset list rendered by the component (source lines
68 to 75). -/
def presets : List Scenario :=
  [ ⟨"Earth orbit", "earth", 10000 / AU, none, none, none⟩,
    ⟨"Moon orbit", "moon", 3000 / AU, none, none, none⟩,
    ⟨"Mars orbit", "mars", 5000 / AU, none, none, none⟩,
    ⟨"Venus orbit", "venus", 10000 / AU, none, none, some Real.pi⟩,
    ⟨"Jupiter orbit", "jupiter", 100000 / AU, none, none, none⟩ ]

/-- Calls the click handler makes through the component's props. -/
inductive PropEvent where
  | sendMessage (msg : String)
  | setThrottle (value : ℝ)
  | resetTime

/-- The rotation the callback computes (source lines 85 to 91):
the preset's own rotation if given (`??`), otherwise the rotation about
Z by `ascending_node - pi/2` multiplied by the rotation about Y by `pi`,
with `ascending_node` defaulting to `0`. -/
def scenarioRotation (scenario : Scenario) : Quaternion :=
  let ascending_node := scenario.ascending_node.getD 0
  match scenario.rotation with
  | some r => r
  | none =>
      (AxisAngleQuaternion 0 0 1 (ascending_node - Real.pi / 2)).multiply
        (AxisAngleQuaternion 0 1 0 Real.pi)

/-- The outcome of one preset click: the callback's return value, the
body afterwards, the panel's `visible` state afterwards, and the calls
made through the props. -/
structure ClickResult where
  retval : Bool
  body : CelestialBody
  visible : Bool
  events : List PropEvent

/-- The callback the component passes to `onSelectScenario` for a given
preset (source lines 84 to 109), as a pure function of the external
body lookup (`CelestialBody.findBody`), the external orbital-velocity
initializer (`setOrbitingVelocity`, modelled by the velocity it
assigns), the clicked preset, the selected body and the panel state. -/
def onSelectScenarioCallback
    (findBody : String → Option String)
    (orbitingVelocity : ℝ → Quaternion → CelestialBody → Vector3)
    (scenario : Scenario) (select_obj : CelestialBody) (visible : Bool) :
    ClickResult :=
  let eccentricity := scenario.eccentricity.getD 0
  let rotation := scenarioRotation scenario
  match findBody scenario.parent with
  | none => ⟨false, select_obj, visible, []⟩
  | some parent =>
      let b1 := { select_obj with parent := some parent }
      let b2 := { b1 with
        position := ((Vector3.mk 0 (1 - eccentricity) 0).multiplyScalar
          scenario.semimajor_axis).applyQuaternion rotation }
      let b3 := { b2 with
        quaternion := rotation.clone.multiply
          (AxisAngleQuaternion 1 0 0 (-Real.pi / 2)) }
      let b4 := { b3 with angularVelocity := ⟨0, 0, 0⟩ }
      let b5 := { b4 with
        velocity := orbitingVelocity scenario.semimajor_axis rotation b4 }
      let b6 := { b5 with totalDeltaV := 0 }
      let b7 := { b6 with ignitionCount := 0 }
      ⟨true, b7, false,
        [PropEvent.sendMessage ("Scenario " ++ scenario.title ++ " Loaded!")]⟩

/-- The state of the selected body at the moment the callback invokes
`setOrbitingVelocity` (`none` when the parent lookup fails and the call
is never reached): the prefix of `onSelectScenarioCallback` up to
source line 102. -/
def bodyAtOrbitingVelocityCall
    (findBody : String → Option String)
    (scenario : Scenario) (select_obj : CelestialBody) :
    Option CelestialBody :=
  let eccentricity := scenario.eccentricity.getD 0
  let rotation := scenarioRotation scenario
  match findBody scenario.parent with
  | none => none
  | some parent =>
      let b1 := { select_obj with parent := some parent }
      let b2 := { b1 with
        position := ((Vector3.mk 0 (1 - eccentricity) 0).multiplyScalar
          scenario.semimajor_axis).applyQuaternion rotation }
      let b3 := { b2 with
        quaternion := rotation.clone.multiply
          (AxisAngleQuaternion 1 0 0 (-Real.pi / 2)) }
      let b4 := { b3 with angularVelocity := ⟨0, 0, 0⟩ }
      some b4

/-- The component's public `setVisible` method (source lines 125 to
130): its body is entirely commented out, so it returns the component
state unchanged. -/
def ScenarioSelectorControl.setVisible (_v : Bool) (visible : Bool) : Bool :=
  visible

/-- A concrete body used to instantiate the theorems below. -/
def sampleBody : CelestialBody :=
  ⟨none, ⟨1, 2, 3⟩, ⟨0, 0, 0, 1⟩, ⟨0, 0, 0⟩, ⟨4, 5, 6⟩, 7, 8⟩

/-- A concrete preset (the first entry of `presets`). -/
def sampleScenario : Scenario :=
  ⟨"Earth orbit", "earth", 10000 / AU, none, none, none⟩

/-- A body lookup that resolves every name. -/
def resolveAll : String → Option String := fun name => some name

/-- A body lookup that resolves no name. -/
def resolveNone : String → Option String := fun _ => none

/-- A trivial stand-in for the external orbital-velocity initializer. -/
def zeroOrbitVel : ℝ → Quaternion → CelestialBody → Vector3 :=
  fun _ _ _ => ⟨0, 0, 0⟩

/-! ### Quaternion algebra -/

theorem lengthSq_multiply (a b : Quaternion) :
    (a.multiply b).lengthSq = a.lengthSq * b.lengthSq := by
  simp only [Quaternion.multiply, Quaternion.lengthSq]
  ring

theorem lengthSq_applyQuaternion (v : Vector3) (q : Quaternion) :
    (v.applyQuaternion q).lengthSq =
      v.lengthSq + 4 * ((q.x ^ 2 + q.y ^ 2 + q.z ^ 2) * v.lengthSq -
        (q.x * v.x + q.y * v.y + q.z * v.z) ^ 2) * (q.lengthSq - 1) := by
  simp only [Vector3.applyQuaternion, Vector3.lengthSq, Quaternion.lengthSq]
  ring

/-- Rotation by a unit quaternion preserves the squared length. -/
theorem lengthSq_applyQuaternion_of_unit (v : Vector3) (q : Quaternion)
    (h : q.lengthSq = 1) : (v.applyQuaternion q).lengthSq = v.lengthSq := by
  rw [lengthSq_applyQuaternion, h]
  ring

theorem lengthSq_axisAngle_z (angle : ℝ) :
    (AxisAngleQuaternion 0 0 1 angle).lengthSq = 1 := by
  simp only [AxisAngleQuaternion, Quaternion.lengthSq]
  linear_combination Real.sin_sq_add_cos_sq (angle / 2)

theorem lengthSq_axisAngle_y (angle : ℝ) :
    (AxisAngleQuaternion 0 1 0 angle).lengthSq = 1 := by
  simp only [AxisAngleQuaternion, Quaternion.lengthSq]
  linear_combination Real.sin_sq_add_cos_sq (angle / 2)

/-- A preset without a fixed rotation gets a unit rotation quaternion. -/
theorem lengthSq_scenarioRotation (scenario : Scenario)
    (hr : scenario.rotation = none) :
    (scenarioRotation scenario).lengthSq = 1 := by
  simp only [scenarioRotation, hr]
  rw [lengthSq_multiply, lengthSq_axisAngle_z, lengthSq_axisAngle_y, one_mul]

/-! ### The success path of the click handler -/

/-- On a resolvable parent, the body position after the click is the
scaled `(0, 1 - eccentricity, 0)` vector rotated by the scenario
rotation. -/
theorem onSelect_success_position
    (findBody : String → Option String)
    (orbitingVelocity : ℝ → Quaternion → CelestialBody → Vector3)
    (scenario : Scenario) (body : CelestialBody) (visible : Bool)
    (p : String) (h : findBody scenario.parent = some p) :
    (onSelectScenarioCallback findBody orbitingVelocity scenario body
      visible).body.position =
      ((Vector3.mk 0 (1 - scenario.eccentricity.getD 0) 0).multiplyScalar
        scenario.semimajor_axis).applyQuaternion (scenarioRotation scenario) := by
  simp [onSelectScenarioCallback, h]

/-- For a preset without a fixed rotation or an eccentricity and with a
nonnegative semimajor axis, the clicked body's position has Euclidean
length `semimajor_axis * (1 - eccentricity)`. -/
theorem click_position_length_aux
    (findBody : String → Option String)
    (orbitingVelocity : ℝ → Quaternion → CelestialBody → Vector3)
    (scenario : Scenario) (body : CelestialBody) (visible : Bool)
    (p : String)
    (hr : scenario.rotation = none) (he : scenario.eccentricity = none)
    (ha : 0 ≤ scenario.semimajor_axis)
    (h : findBody scenario.parent = some p) :
    ((onSelectScenarioCallback findBody orbitingVelocity scenario body
      visible).body.position).length =
      scenario.semimajor_axis * (1 - scenario.eccentricity.getD 0) := by
  rw [onSelect_success_position findBody orbitingVelocity scenario body
    visible p h]
  unfold Vector3.length
  rw [lengthSq_applyQuaternion_of_unit _ _ (lengthSq_scenarioRotation scenario hr)]
  simp only [he, Option.getD_none, Vector3.multiplyScalar, Vector3.lengthSq]
  have hsq : ((0 : ℝ) * scenario.semimajor_axis) ^ 2 +
      ((1 - 0) * scenario.semimajor_axis) ^ 2 +
      ((0 : ℝ) * scenario.semimajor_axis) ^ 2 =
      scenario.semimajor_axis ^ 2 := by ring
  rw [hsq, Real.sqrt_sq ha]
  ring

/-! ### Claim theorems -/

/-- C1: when the preset's parent name cannot be resolved (`findBody`
returns `none`), the selection callback returns `false`, leaves the
body entirely unchanged (parent, position, quaternion, velocity,
angular velocity, total delta-v and ignition count), sends no message,
and leaves the panel's `visible` state unchanged. -/
theorem click_unresolved_parent_no_mutation
    (findBody : String → Option String)
    (orbitingVelocity : ℝ → Quaternion → CelestialBody → Vector3)
    (scenario : Scenario) (body : CelestialBody) (visible : Bool)
    (h : findBody scenario.parent = none) :
    (onSelectScenarioCallback findBody orbitingVelocity scenario body
      visible).retval = false ∧
    (onSelectScenarioCallback findBody orbitingVelocity scenario body
      visible).body = body ∧
    (onSelectScenarioCallback findBody orbitingVelocity scenario body
      visible).events = [] ∧
    (onSelectScenarioCallback findBody orbitingVelocity scenario body
      visible).visible = visible := by
  simp [onSelectScenarioCallback, h]

/-- Witness for C1 at a concrete preset, body and failing lookup. -/
theorem click_unresolved_parent_no_mutation_witness :
    resolveNone sampleScenario.parent = none ∧
    ((onSelectScenarioCallback resolveNone zeroOrbitVel sampleScenario
        sampleBody true).retval = false ∧
      (onSelectScenarioCallback resolveNone zeroOrbitVel sampleScenario
        sampleBody true).body = sampleBody ∧
      (onSelectScenarioCallback resolveNone zeroOrbitVel sampleScenario
        sampleBody true).events = [] ∧
      (onSelectScenarioCallback resolveNone zeroOrbitVel sampleScenario
        sampleBody true).visible = true) :=
  ⟨rfl, click_unresolved_parent_no_mutation resolveNone zeroOrbitVel
    sampleScenario sampleBody true rfl⟩

/-- C4: the rotation used by the click handler is the preset's own
rotation quaternion when one is given, and otherwise the quaternion of
the rotation about the Z axis by `ascending_node - pi/2` composed with
the rotation about the Y axis by `pi`, with `ascending_node` defaulting
to `0` when the preset omits it. -/
theorem scenarioRotation_spec (scenario : Scenario) :
    scenarioRotation scenario = scenario.rotation.getD
      ((AxisAngleQuaternion 0 0 1
        (scenario.ascending_node.getD 0 - Real.pi / 2)).multiply
        (AxisAngleQuaternion 0 1 0 Real.pi)) := by
  cases hr : scenario.rotation <;> simp [scenarioRotation, hr]

/-- C7: on a resolvable parent the callback returns `true`, sends
exactly one confirmation message, and closes the panel. -/
theorem click_success_message
    (findBody : String → Option String)
    (orbitingVelocity : ℝ → Quaternion → CelestialBody → Vector3)
    (scenario : Scenario) (body : CelestialBody) (visible : Bool)
    (p : String) (h : findBody scenario.parent = some p) :
    (onSelectScenarioCallback findBody orbitingVelocity scenario body
      visible).retval = true ∧
    (onSelectScenarioCallback findBody orbitingVelocity scenario body
      visible).events =
      [PropEvent.sendMessage ("Scenario " ++ scenario.title ++ " Loaded!")] ∧
    (onSelectScenarioCallback findBody orbitingVelocity scenario body
      visible).visible = false := by
  simp [onSelectScenarioCallback, h]

/-- Witness for C7 at a concrete preset, body and resolving lookup. -/
theorem click_success_message_witness :
    resolveAll sampleScenario.parent = some ("earth") ∧
    ((onSelectScenarioCallback resolveAll zeroOrbitVel sampleScenario
        sampleBody true).retval = true ∧
      (onSelectScenarioCallback resolveAll zeroOrbitVel sampleScenario
        sampleBody true).events =
        [PropEvent.sendMessage
          ("Scenario " ++ sampleScenario.title ++ " Loaded!")] ∧
      (onSelectScenarioCallback resolveAll zeroOrbitVel sampleScenario
        sampleBody true).visible = false) :=
  ⟨rfl, click_success_message resolveAll zeroOrbitVel sampleScenario
    sampleBody true ("earth") rfl⟩

/-- C2: on a resolvable parent the body position is set to the vector
`(0, 1 - eccentricity, 0)` scaled by the preset's semimajor axis and
rotated by the computed rotation, where `eccentricity` defaults to `0`
when the preset omits it. -/
theorem click_position_formula
    (findBody : String → Option String)
    (orbitingVelocity : ℝ → Quaternion → CelestialBody → Vector3)
    (scenario : Scenario) (body : CelestialBody) (visible : Bool)
    (p : String) (h : findBody scenario.parent = some p) :
    (scenario.eccentricity = none →
      (onSelectScenarioCallback findBody orbitingVelocity scenario body
        visible).body.position =
        ((Vector3.mk 0 (1 - 0) 0).multiplyScalar
          scenario.semimajor_axis).applyQuaternion (scenarioRotation scenario)) ∧
    (∀ e, scenario.eccentricity = some e →
      (onSelectScenarioCallback findBody orbitingVelocity scenario body
        visible).body.position =
        ((Vector3.mk 0 (1 - e) 0).multiplyScalar
          scenario.semimajor_axis).applyQuaternion (scenarioRotation scenario)) := by
  constructor
  · intro he
    rw [onSelect_success_position findBody orbitingVelocity scenario body
      visible p h, he]
    rfl
  · intro e he
    rw [onSelect_success_position findBody orbitingVelocity scenario body
      visible p h, he]
    rfl

/-- Witness for C2 at a concrete preset, body and resolving lookup. -/
theorem click_position_formula_witness :
    resolveAll sampleScenario.parent = some ("earth") ∧
    sampleScenario.eccentricity = none ∧
    (onSelectScenarioCallback resolveAll zeroOrbitVel sampleScenario
      sampleBody true).body.position =
      ((Vector3.mk 0 (1 - 0) 0).multiplyScalar
        sampleScenario.semimajor_axis).applyQuaternion
        (scenarioRotation sampleScenario) :=
  ⟨rfl, rfl,
    (click_position_formula resolveAll zeroOrbitVel sampleScenario
      sampleBody true ("earth") rfl).1 rfl⟩

/-- C5: on a resolvable parent the body's orientation quaternion is set
to the computed rotation multiplied on the right by the quaternion of a
rotation about the X axis by `-pi/2`. -/
theorem click_quaternion_formula
    (findBody : String → Option String)
    (orbitingVelocity : ℝ → Quaternion → CelestialBody → Vector3)
    (scenario : Scenario) (body : CelestialBody) (visible : Bool)
    (p : String) (h : findBody scenario.parent = some p) :
    (onSelectScenarioCallback findBody orbitingVelocity scenario body
      visible).body.quaternion =
      (scenarioRotation scenario).multiply
        (AxisAngleQuaternion 1 0 0 (-(Real.pi / 2))) := by
  simp [onSelectScenarioCallback, h, Quaternion.clone, neg_div]

/-- Witness for C5 at a concrete preset, body and resolving lookup. -/
theorem click_quaternion_formula_witness :
    resolveAll sampleScenario.parent = some ("earth") ∧
    (onSelectScenarioCallback resolveAll zeroOrbitVel sampleScenario
      sampleBody true).body.quaternion =
      (scenarioRotation sampleScenario).multiply
        (AxisAngleQuaternion 1 0 0 (-(Real.pi / 2))) :=
  ⟨rfl, click_quaternion_formula resolveAll zeroOrbitVel sampleScenario
    sampleBody true ("earth") rfl⟩

/-- C6 counterexample: with a resolvable parent and a body whose total
delta-v is `7`, the body state at the moment `setOrbitingVelocity` is
invoked still carries total delta-v `7`, not `0`: total delta-v (and
ignition count) are zeroed only after that call, so the claim that all
three counters are zero before the call is false. -/
theorem click_zeroing_order_counterexample :
    (bodyAtOrbitingVelocityCall resolveAll sampleScenario sampleBody).map
      CelestialBody.totalDeltaV = some 7 ∧ (7 : ℝ) ≠ 0 :=
  ⟨rfl, by norm_num⟩

/-- C6 (amended): on a resolvable parent, at the moment
`setOrbitingVelocity` is invoked only the angular velocity has been
zeroed; total delta-v and ignition count still hold their prior values
and are zeroed after the call, so all three are zero when the callback
returns. -/
theorem click_zeroing_order
    (findBody : String → Option String)
    (orbitingVelocity : ℝ → Quaternion → CelestialBody → Vector3)
    (scenario : Scenario) (body : CelestialBody) (visible : Bool)
    (p : String) (h : findBody scenario.parent = some p) :
    (∃ b, bodyAtOrbitingVelocityCall findBody scenario body = some b ∧
      b.angularVelocity = ⟨0, 0, 0⟩ ∧
      b.totalDeltaV = body.totalDeltaV ∧
      b.ignitionCount = body.ignitionCount) ∧
    (onSelectScenarioCallback findBody orbitingVelocity scenario body
      visible).body.angularVelocity = ⟨0, 0, 0⟩ ∧
    (onSelectScenarioCallback findBody orbitingVelocity scenario body
      visible).body.totalDeltaV = 0 ∧
    (onSelectScenarioCallback findBody orbitingVelocity scenario body
      visible).body.ignitionCount = 0 := by
  simp only [bodyAtOrbitingVelocityCall, onSelectScenarioCallback, h]
  exact ⟨⟨_, rfl, rfl, rfl, rfl⟩, trivial, trivial, trivial⟩

/-- Witness for C6 (amended) at a concrete preset, body and resolving
lookup. -/
theorem click_zeroing_order_witness :
    resolveAll sampleScenario.parent = some ("earth") ∧
    ((∃ b, bodyAtOrbitingVelocityCall resolveAll sampleScenario sampleBody
        = some b ∧
        b.angularVelocity = ⟨0, 0, 0⟩ ∧
        b.totalDeltaV = sampleBody.totalDeltaV ∧
        b.ignitionCount = sampleBody.ignitionCount) ∧
      (onSelectScenarioCallback resolveAll zeroOrbitVel sampleScenario
        sampleBody true).body.angularVelocity = ⟨0, 0, 0⟩ ∧
      (onSelectScenarioCallback resolveAll zeroOrbitVel sampleScenario
        sampleBody true).body.totalDeltaV = 0 ∧
      (onSelectScenarioCallback resolveAll zeroOrbitVel sampleScenario
        sampleBody true).body.ignitionCount = 0) :=
  ⟨rfl, click_zeroing_order resolveAll zeroOrbitVel sampleScenario
    sampleBody true ("earth") rfl⟩

/-- C8 counterexample: no execution of the preset-click handler ever
invokes `setThrottle` or `resetTime` (the calls are commented out in
the source), so the claim that some execution invokes both is false. -/
theorem click_throttle_resetTime_counterexample :
    ¬ ∃ (findBody : String → Option String)
        (orbitingVelocity : ℝ → Quaternion → CelestialBody → Vector3)
        (scenario : Scenario) (body : CelestialBody) (visible : Bool)
        (t : ℝ),
      PropEvent.setThrottle t ∈ (onSelectScenarioCallback findBody
        orbitingVelocity scenario body visible).events ∧
      PropEvent.resetTime ∈ (onSelectScenarioCallback findBody
        orbitingVelocity scenario body visible).events := by
  rintro ⟨findBody, orbitingVelocity, scenario, body, visible, t, hmem, -⟩
  cases hf : findBody scenario.parent <;>
    simp [onSelectScenarioCallback, hf] at hmem

/-- C8 (amended): the component declares `setThrottle` and `resetTime`
among its props but the preset-click handler never invokes either one;
every call it makes through the props is a `sendMessage`. -/
theorem click_no_throttle_no_resetTime
    (findBody : String → Option String)
    (orbitingVelocity : ℝ → Quaternion → CelestialBody → Vector3)
    (scenario : Scenario) (body : CelestialBody) (visible : Bool) :
    ((onSelectScenarioCallback findBody orbitingVelocity scenario body
      visible).events.filter fun e =>
        match e with
        | PropEvent.setThrottle _ => true
        | PropEvent.resetTime => true
        | PropEvent.sendMessage _ => false) = [] := by
  cases hf : findBody scenario.parent <;>
    simp [onSelectScenarioCallback, hf]

/-- C3: for each entry of the preset list, clicking it with a
resolvable parent leaves the body's position with Euclidean magnitude
`semimajor_axis * (1 - eccentricity)`: the rotation is a unit
quaternion, so it preserves vector length. -/
theorem click_position_length
    (scenario : Scenario) (hs : scenario ∈ presets)
    (findBody : String → Option String)
    (orbitingVelocity : ℝ → Quaternion → CelestialBody → Vector3)
    (body : CelestialBody) (visible : Bool)
    (p : String) (h : findBody scenario.parent = some p) :
    ((onSelectScenarioCallback findBody orbitingVelocity scenario body
      visible).body.position).length =
      scenario.semimajor_axis * (1 - scenario.eccentricity.getD 0) := by
  have hAU : (0 : ℝ) < AU := by unfold AU; norm_num
  simp only [presets, List.mem_cons, List.not_mem_nil, or_false] at hs
  rcases hs with rfl | rfl | rfl | rfl | rfl <;>
    exact click_position_length_aux findBody orbitingVelocity _ body visible
      p rfl rfl (by positivity) h

/-- Witness for C3 at the first preset with a resolving lookup. -/
theorem click_position_length_witness :
    sampleScenario ∈ presets ∧
    resolveAll sampleScenario.parent = some ("earth") ∧
    ((onSelectScenarioCallback resolveAll zeroOrbitVel sampleScenario
      sampleBody true).body.position).length =
      sampleScenario.semimajor_axis * (1 - sampleScenario.eccentricity.getD 0) :=
  ⟨List.Mem.head _, rfl,
    click_position_length sampleScenario (List.Mem.head _) resolveAll
      zeroOrbitVel sampleBody true ("earth") rfl⟩

/-- C9: the preset list has exactly five entries with the stated
titles, parents and semimajor axes; no entry carries an eccentricity or
a fixed rotation, so every preset's eccentricity defaults to `0` and
every click takes the default compound-rotation branch; only the Venus
preset has an ascending node, namely `pi`, which is nonzero. -/
theorem presets_contents :
    presets.length = 5 ∧
    presets.map Scenario.title =
      ["Earth orbit", "Moon orbit", "Mars orbit", "Venus orbit",
        "Jupiter orbit"] ∧
    presets.map Scenario.parent =
      ["earth", "moon", "mars", "venus", "jupiter"] ∧
    presets.map Scenario.semimajor_axis =
      [10000 / AU, 3000 / AU, 5000 / AU, 10000 / AU, 100000 / AU] ∧
    presets.map Scenario.eccentricity = [none, none, none, none, none] ∧
    presets.map Scenario.rotation = [none, none, none, none, none] ∧
    presets.map (fun s => s.eccentricity.getD 0) = [0, 0, 0, 0, 0] ∧
    presets.map scenarioRotation = presets.map (fun s =>
      (AxisAngleQuaternion 0 0 1
        (s.ascending_node.getD 0 - Real.pi / 2)).multiply
        (AxisAngleQuaternion 0 1 0 Real.pi)) ∧
    presets.map Scenario.ascending_node =
      [none, none, none, some Real.pi, none] ∧
    Real.pi ≠ 0 :=
  ⟨rfl, rfl, rfl, rfl, rfl, rfl, rfl, rfl, rfl, Real.pi_ne_zero⟩

/-- C10: the component's public `setVisible` method is a no-op; its
body is commented out, so the component state is unchanged for every
argument. -/
theorem setVisible_noop (v visible : Bool) :
    ScenarioSelectorControl.setVisible v visible = visible := rfl

end

end Orbiter
